import Mathlib

/-!
# Rigid Transform Algebra — verification of `controller_relative_to_tracker.cpp`

Shallow embedding of the core numerical component of the repository
`htc_vive_tracker` (file `src/examples/controller_relative_to_tracker.cpp`).
The C++ code works on `double` values; here the arithmetic is idealised as
exact rational arithmetic (every IEEE double value is a rational number, and
all the claims are stated "within floating-point tolerance", i.e. about the
exact underlying algebra).  The square root in `ComputeDistance` is the one
genuinely real-valued operation and is modelled by `Real.sqrt`.
-/

namespace ViveRelative

open Matrix

/-- The C++ `Transform` struct: a 3x4 transformation matrix
(`double matrix[3][4]`), rotation in columns 0..2, translation in column 3. -/
@[ext] structure Transform where
  matrix : Fin 3 → Fin 4 → ℚ

/-- `PoseQuatToMatrix`: converts a pose (position) and a quaternion
`[w, x, y, z]` to a 3x4 transformation matrix, exactly as the C++ function
fills `transform.matrix`. -/
def PoseQuatToMatrix (pose : Fin 3 → ℚ) (quat : Fin 4 → ℚ) : Transform :=
  let w := quat 0
  let x := quat 1
  let y := quat 2
  let z := quat 3
  ⟨![![1 - 2*y*y - 2*z*z, 2*x*y - 2*w*z, 2*x*z + 2*w*y, pose 0],
     ![2*x*y + 2*w*z, 1 - 2*x*x - 2*z*z, 2*y*z - 2*w*x, pose 1],
     ![2*x*z - 2*w*y, 2*y*z + 2*w*x, 1 - 2*x*x - 2*y*y, pose 2]]⟩

/-- `InvertTransform`: for the rotation block (columns `j < 3`) the transpose
of the input's rotation block; for the translation column the C++ loop
`output[i][3] -= output[i][j] * input[j][3]` over `j = 0,1,2`, i.e.
`-(sum j, input[j][i] * input[j][3])` (the already-transposed rotation applied
to the input translation, then negated). -/
def InvertTransform (input : Transform) : Transform :=
  ⟨fun i j =>
    if h : (j : ℕ) < 3 then
      input.matrix ⟨(j : ℕ), h⟩ i.castSucc
    else
      -(∑ k : Fin 3, input.matrix k i.castSucc * input.matrix k 3)⟩

/-- `MultiplyTransforms`: rotation block is the 3x3 matrix product, the
translation column is `t1[i][3] + sum j, t1[i][j] * t2[j][3]`, exactly as the
C++ loops compute `result = t1 * t2`. -/
def MultiplyTransforms (t1 t2 : Transform) : Transform :=
  ⟨fun i j =>
    if _h : (j : ℕ) < 3 then
      ∑ k : Fin 3, t1.matrix i k.castSucc * t2.matrix k j
    else
      t1.matrix i 3 + ∑ k : Fin 3, t1.matrix i k.castSucc * t2.matrix k 3⟩

/-- `ExtractPosition`: reads the translation column of a transform. -/
def ExtractPosition (t : Transform) : Fin 3 → ℚ := fun i => t.matrix i 3

/-- One pose sample delivered by the tracking provider: a position and a
quaternion `[w, x, y, z]` (the data `GetDevicePoseQuaternion` writes on
success). -/
structure PoseSample where
  pose : Fin 3 → ℚ
  quat : Fin 4 → ℚ

/-- `ComputeRelativePosition`: queries the provider for both devices; if
either query fails it writes `0.0` into all three components of
`relative_position` and returns; otherwise it encodes both samples, inverts
the tracker transform, composes, and extracts the position.  The provider
argument models `vt.GetDevicePoseQuaternion` (`none` = returned `false`). -/
def ComputeRelativePosition (provider : String → Option PoseSample)
    (controller_name tracker_name : String) : Fin 3 → ℚ :=
  match provider controller_name, provider tracker_name with
  | some cs, some ts =>
      ExtractPosition (MultiplyTransforms
        (InvertTransform (PoseQuatToMatrix ts.pose ts.quat))
        (PoseQuatToMatrix cs.pose cs.quat))
  | _, _ => fun _ => 0

/-- `ComputeDistance`: Euclidean norm of a relative-position vector, the
C++ `sqrt(x*x + y*y + z*z)`. -/
noncomputable def ComputeDistance (relative_position : Fin 3 → ℚ) : ℝ :=
  Real.sqrt ((relative_position 0 * relative_position 0 +
      relative_position 1 * relative_position 1 +
      relative_position 2 * relative_position 2 : ℚ) : ℝ)

/-! ### Views of a transform as Mathlib matrix/vector blocks -/

/-- The 3x3 rotation block (columns 0..2) of a transform. -/
def rotBlock (T : Transform) : Matrix (Fin 3) (Fin 3) ℚ :=
  Matrix.of fun i j => T.matrix i j.castSucc

/-- The translation column (column 3) of a transform. -/
def transBlock (T : Transform) : Fin 3 → ℚ := fun i => T.matrix i 3

/-- The identity rigid transform: identity rotation, zero translation. -/
def idTransform : Transform :=
  ⟨fun i j => if (i : ℕ) = (j : ℕ) then 1 else 0⟩

/-- A valid rigid transform: orthonormal rotation block with determinant 1. -/
def IsRigid (T : Transform) : Prop :=
  (rotBlock T)ᵀ * rotBlock T = 1 ∧ (rotBlock T).det = 1

/-! ### Spec-side definitions (for refinement comparisons) -/

/-- The 3x4 block written in the specification (section 4.1): the standard
quaternion-to-rotation-matrix formula for the rotation block, and the input
position as the 4th column.  Transcribed from the spec's words, to be compared
with the source's `PoseQuatToMatrix`. -/
def EncodeSpecMatrix (pose : Fin 3 → ℚ) (quat : Fin 4 → ℚ) : Fin 3 → Fin 4 → ℚ :=
  let w := quat 0
  let x := quat 1
  let y := quat 2
  let z := quat 3
  ![![1 - 2*y^2 - 2*z^2, 2*x*y - 2*w*z, 2*x*z + 2*w*y, pose 0],
    ![2*x*y + 2*w*z, 1 - 2*x^2 - 2*z^2, 2*y*z - 2*w*x, pose 1],
    ![2*x*z - 2*w*y, 2*y*z + 2*w*x, 1 - 2*x^2 - 2*y^2, pose 2]]

/-- The failure taxonomy of the specification (section 7). -/
inductive Failure where
  | DeviceUnavailable
  deriving DecidableEq

/-- Modelled from the spec (section 4.4): the result-typed Relative Pose
Evaluator the specification prescribes — if either provider query fails the
whole operation fails with `DeviceUnavailable` and no value is produced;
on success it performs encode, invert, compose, extract-position.  Written
from the spec's words, to be compared with the source's zero-substituting
`ComputeRelativePosition`. -/
def RelativePositionSpec (provider : String → Option PoseSample)
    (primary secondary : String) : Except Failure (Fin 3 → ℚ) :=
  match provider primary, provider secondary with
  | some ps, some ss =>
      Except.ok (ExtractPosition (MultiplyTransforms
        (InvertTransform (PoseQuatToMatrix ss.pose ss.quat))
        (PoseQuatToMatrix ps.pose ps.quat)))
  | _, _ => Except.error Failure.DeviceUnavailable

/-! ### Concrete inputs used by witnesses and counterexamples -/

/-- Concrete sample: position `(1,0,0)`, identity orientation. -/
def sampleA : PoseSample := ⟨![1, 0, 0], ![1, 0, 0, 0]⟩

/-- Concrete sample: position `(0,0,0)`, identity orientation. -/
def sampleB : PoseSample := ⟨![0, 0, 0], ![1, 0, 0, 0]⟩

/-- Provider with both devices available. -/
def providerAB : String → Option PoseSample :=
  fun s => if s = "controller_1" then some sampleA else some sampleB

/-- Provider where only the controller is available; the tracker
(secondary) lookup fails. -/
def providerNoTracker : String → Option PoseSample :=
  fun s => if s = "controller_1" then some sampleA else none

/-- A concrete rigid transform: rotation by 90 degrees about the z axis,
translation `(1,2,3)`. -/
def rigidT : Transform :=
  ⟨![![0, -1, 0, 1], ![1, 0, 0, 2], ![0, 0, 1, 3]]⟩

/-! ### Basic block lemmas -/

theorem rotBlock_mult (A B : Transform) :
    rotBlock (MultiplyTransforms A B) = rotBlock A * rotBlock B := by
  ext i j
  simp [rotBlock, MultiplyTransforms, Matrix.mul_apply]

theorem transBlock_mult (A B : Transform) :
    transBlock (MultiplyTransforms A B) =
      transBlock A + rotBlock A *ᵥ transBlock B := by
  funext i
  simp [transBlock, MultiplyTransforms, rotBlock, Matrix.mulVec, dotProduct]
  intro h
  exact absurd h (by decide)

theorem rotBlock_invert (T : Transform) :
    rotBlock (InvertTransform T) = (rotBlock T)ᵀ := by
  ext i j
  simp [rotBlock, InvertTransform, Matrix.transpose_apply]

theorem transBlock_invert (T : Transform) :
    transBlock (InvertTransform T) = -((rotBlock T)ᵀ *ᵥ transBlock T) := by
  funext i
  simp [transBlock, InvertTransform, rotBlock, Matrix.mulVec, dotProduct,
    Matrix.transpose_apply]
  intro h
  exact absurd h (by decide)

theorem transBlock_encode (pose : Fin 3 → ℚ) (quat : Fin 4 → ℚ) :
    transBlock (PoseQuatToMatrix pose quat) = pose := by
  funext i
  fin_cases i <;> rfl

theorem rotBlock_id : rotBlock idTransform = 1 := by
  ext i j
  simp [rotBlock, idTransform, Matrix.one_apply, Fin.val_eq_val]

theorem transBlock_id : transBlock idTransform = 0 := by
  funext i
  have hi := i.isLt
  simp only [transBlock, idTransform]
  rw [if_neg (by omega)]
  rfl

theorem Transform.ext_blocks {A B : Transform}
    (h1 : rotBlock A = rotBlock B) (h2 : transBlock A = transBlock B) :
    A = B := by
  ext i j
  by_cases hj : (j : ℕ) < 3
  · have := congrFun (congrFun h1 i) ⟨(j : ℕ), hj⟩
    simpa [rotBlock, Fin.castSucc, Fin.castAdd, Fin.castLE] using this
  · have hj3 : j = 3 := by
      have := j.isLt
      apply Fin.ext
      omega
    subst hj3
    exact congrFun h2 i

theorem castSucc_two_eq : Fin.castSucc (2 : Fin 3) = (2 : Fin 4) := rfl

/-- On any failed lookup, the reference evaluator returns the zero vector
(the C++ code writes `0.0` into all three components and returns early). -/
theorem computeRelativePosition_none (provider : String → Option PoseSample)
    (c t : String) (h : provider c = none ∨ provider t = none) :
    ComputeRelativePosition provider c t = fun _ => 0 := by
  unfold ComputeRelativePosition
  rcases h with h | h
  · rw [h]
  · rcases hc : provider c with _ | cs
    · rfl
    · rw [h]

/-- On any failed lookup, the spec-modelled evaluator fails with
`DeviceUnavailable`. -/
theorem relativePositionSpec_none (provider : String → Option PoseSample)
    (c t : String) (h : provider c = none ∨ provider t = none) :
    RelativePositionSpec provider c t =
      Except.error Failure.DeviceUnavailable := by
  unfold RelativePositionSpec
  rcases h with h | h
  · rw [h]
  · rcases hc : provider c with _ | cs
    · rfl
    · rw [h]

/-! ### Claim theorems -/

/-- C1: whenever both provider queries succeed, the relative position the
evaluator returns is the translation component of
`Compose(Invert(Encode(secondary)), Encode(primary))`; equivalently (second
conjunct) it is `Rᵀ·(p_primary - p_secondary)`, the primary body's position
expressed in the secondary body's local frame. -/
theorem computeRelativePosition_eq_compose
    (provider : String → Option PoseSample)
    (controller_name tracker_name : String) (cs ts : PoseSample)
    (hc : provider controller_name = some cs)
    (ht : provider tracker_name = some ts) :
    ComputeRelativePosition provider controller_name tracker_name =
      ExtractPosition (MultiplyTransforms
        (InvertTransform (PoseQuatToMatrix ts.pose ts.quat))
        (PoseQuatToMatrix cs.pose cs.quat)) ∧
    ComputeRelativePosition provider controller_name tracker_name =
      (rotBlock (PoseQuatToMatrix ts.pose ts.quat))ᵀ *ᵥ
        (cs.pose - ts.pose) := by
  have h1 : ComputeRelativePosition provider controller_name tracker_name =
      ExtractPosition (MultiplyTransforms
        (InvertTransform (PoseQuatToMatrix ts.pose ts.quat))
        (PoseQuatToMatrix cs.pose cs.quat)) := by
    unfold ComputeRelativePosition
    rw [hc, ht]
  refine ⟨h1, ?_⟩
  rw [h1]
  show transBlock (MultiplyTransforms _ _) = _
  rw [transBlock_mult, transBlock_invert, rotBlock_invert, transBlock_encode,
    transBlock_encode, Matrix.mulVec_sub, neg_add_eq_sub]

/-- Witness for C1: a concrete provider for which both lookups succeed, and
the instantiated conclusion. -/
theorem computeRelativePosition_eq_compose_witness :
    (providerAB "controller_1" = some sampleA ∧
      providerAB "tracker_1" = some sampleB) ∧
    (ComputeRelativePosition providerAB "controller_1" "tracker_1" =
      ExtractPosition (MultiplyTransforms
        (InvertTransform (PoseQuatToMatrix sampleB.pose sampleB.quat))
        (PoseQuatToMatrix sampleA.pose sampleA.quat)) ∧
    ComputeRelativePosition providerAB "controller_1" "tracker_1" =
      (rotBlock (PoseQuatToMatrix sampleB.pose sampleB.quat))ᵀ *ᵥ
        (sampleA.pose - sampleB.pose)) :=
  ⟨⟨rfl, rfl⟩, computeRelativePosition_eq_compose providerAB
    "controller_1" "tracker_1" sampleA sampleB rfl rfl⟩

/-- C2 counterexample: with a provider for which the secondary (tracker)
query fails, the relative-position evaluation of the code does not fail with
`DeviceUnavailable` producing no value — it produces the concrete position
value `(0,0,0)` and the distance value `0` (while the spec-modelled
result-typed evaluator at the same input fails with `DeviceUnavailable`). -/
theorem relativePosition_failure_produces_values :
    RelativePositionSpec providerNoTracker "controller_1" "tracker_1" =
      Except.error Failure.DeviceUnavailable ∧
    ComputeRelativePosition providerNoTracker "controller_1" "tracker_1" =
      ![0, 0, 0] ∧
    ComputeDistance (ComputeRelativePosition providerNoTracker
      "controller_1" "tracker_1") = 0 := by
  have hz : ComputeRelativePosition providerNoTracker "controller_1"
      "tracker_1" = fun _ => 0 := rfl
  refine ⟨rfl, ?_, ?_⟩
  · rw [hz]
    funext i
    fin_cases i <;> rfl
  · rw [hz]
    simp [ComputeDistance]

/-- C2 (amended): when either provider query fails, the spec-level evaluator
fails with `DeviceUnavailable`, but the reference evaluator does not — it
substitutes the zero vector as the position value, and the distance computed
from that output is `0`. -/
theorem relativePosition_failure_vs_spec
    (provider : String → Option PoseSample) (c t : String)
    (h : provider c = none ∨ provider t = none) :
    RelativePositionSpec provider c t =
      Except.error Failure.DeviceUnavailable ∧
    ComputeRelativePosition provider c t = (fun _ => 0) ∧
    ComputeDistance (ComputeRelativePosition provider c t) = 0 := by
  have hz := computeRelativePosition_none provider c t h
  refine ⟨relativePositionSpec_none provider c t h, hz, ?_⟩
  rw [hz]
  simp [ComputeDistance]

/-- Witness for C2 (amended): concrete provider failing on the secondary
device, and the instantiated conclusion. -/
theorem relativePosition_failure_vs_spec_witness :
    (providerNoTracker "controller_1" = none ∨
      providerNoTracker "tracker_1" = none) ∧
    (RelativePositionSpec providerNoTracker "controller_1" "tracker_1" =
      Except.error Failure.DeviceUnavailable ∧
    ComputeRelativePosition providerNoTracker "controller_1" "tracker_1" =
      (fun _ => 0) ∧
    ComputeDistance (ComputeRelativePosition providerNoTracker
      "controller_1" "tracker_1") = 0) :=
  ⟨Or.inr rfl, relativePosition_failure_vs_spec providerNoTracker
    "controller_1" "tracker_1" (Or.inr rfl)⟩

/-- C3: in the reference behavior, whenever a device lookup fails, all three
components of the output relative-position vector are exactly zero, and the
distance computed from that output is exactly `0`. -/
theorem computeRelativePosition_failure_zero
    (provider : String → Option PoseSample) (c t : String)
    (h : provider c = none ∨ provider t = none) :
    (∀ i, ComputeRelativePosition provider c t i = 0) ∧
    ComputeDistance (ComputeRelativePosition provider c t) = 0 := by
  have hz := computeRelativePosition_none provider c t h
  refine ⟨fun i => by rw [hz], ?_⟩
  rw [hz]
  simp [ComputeDistance]

/-- Witness for C3: the all-failing provider, and the instantiated
conclusion. -/
theorem computeRelativePosition_failure_zero_witness :
    ((fun _ : String => (none : Option PoseSample)) "controller_1" = none ∨
      (fun _ : String => (none : Option PoseSample)) "tracker_1" = none) ∧
    ((∀ i, ComputeRelativePosition (fun _ => none) "controller_1"
      "tracker_1" i = 0) ∧
    ComputeDistance (ComputeRelativePosition (fun _ => none) "controller_1"
      "tracker_1") = 0) :=
  ⟨Or.inl rfl, computeRelativePosition_failure_zero (fun _ => none)
    "controller_1" "tracker_1" (Or.inl rfl)⟩

/-- C4: for every position 3-vector and every quaternion `(w,x,y,z)` — unit or
not, since no normalization is performed internally — the Pose Encoder's
output matrix is exactly the spec's standard quaternion-to-rotation formula
with the position as the 4th column. -/
theorem poseQuatToMatrix_matches_spec (pose : Fin 3 → ℚ) (quat : Fin 4 → ℚ) :
    (PoseQuatToMatrix pose quat).matrix = EncodeSpecMatrix pose quat := by
  funext i j
  fin_cases i <;> fin_cases j <;>
    simp [PoseQuatToMatrix, EncodeSpecMatrix] <;> ring

/-- C5: the Transform Inverter (a total function: its Lean embedding needs no
precondition) returns the transform whose rotation block is the transpose of
the input's rotation block and whose translation column is `-(Rᵀ *ᵥ t)`,
the already-transposed rotation applied to the input translation, negated. -/
theorem invertTransform_blocks (T : Transform) :
    rotBlock (InvertTransform T) = (rotBlock T)ᵀ ∧
    transBlock (InvertTransform T) = -((rotBlock T)ᵀ *ᵥ transBlock T) :=
  ⟨rotBlock_invert T, transBlock_invert T⟩

/-- C6: the Transform Composer returns rotation `R_A * R_B` and translation
`t_A + R_A *ᵥ t_B`; and the alternative order `R_B *ᵥ t_A + t_B` is NOT what
it computes (the two differ on concrete transforms). -/
theorem multiplyTransforms_blocks :
    (∀ A B : Transform,
      rotBlock (MultiplyTransforms A B) = rotBlock A * rotBlock B ∧
      transBlock (MultiplyTransforms A B) =
        transBlock A + rotBlock A *ᵥ transBlock B) ∧
    ¬ (∀ A B : Transform,
      transBlock (MultiplyTransforms A B) =
        rotBlock B *ᵥ transBlock A + transBlock B) := by
  constructor
  · exact fun A B => ⟨rotBlock_mult A B, transBlock_mult A B⟩
  · intro hall
    have h1 := congrFun (hall ⟨![![0,-1,0,0], ![1,0,0,0], ![0,0,1,0]]⟩
      ⟨![![1,0,0,1], ![0,1,0,0], ![0,0,1,0]]⟩) 1
    rw [transBlock_mult] at h1
    simp [rotBlock, transBlock, Matrix.mulVec, dotProduct, Matrix.vecHead,
      Matrix.vecTail, Function.comp, Fin.sum_univ_three] at h1

/-- C9: composition of transforms is associative, in both the rotation and
the translation blocks (exactly, hence within any tolerance). -/
theorem multiplyTransforms_assoc (A B C : Transform) :
    MultiplyTransforms (MultiplyTransforms A B) C =
      MultiplyTransforms A (MultiplyTransforms B C) := by
  apply Transform.ext_blocks
  · rw [rotBlock_mult, rotBlock_mult, rotBlock_mult, rotBlock_mult,
      Matrix.mul_assoc]
  · rw [transBlock_mult, transBlock_mult, rotBlock_mult, transBlock_mult,
      transBlock_mult, Matrix.mulVec_add, Matrix.mulVec_mulVec, add_assoc]

/-- C10: inversion is an involution on transforms with an orthonormal
rotation block: `Invert (Invert T) = T` (rotation and translation alike). -/
theorem invertTransform_involutive (T : Transform)
    (h : (rotBlock T)ᵀ * rotBlock T = 1) :
    InvertTransform (InvertTransform T) = T := by
  have h' : rotBlock T * (rotBlock T)ᵀ = 1 := Matrix.mul_eq_one_comm.mp h
  apply Transform.ext_blocks
  · rw [rotBlock_invert, rotBlock_invert, Matrix.transpose_transpose]
  · rw [transBlock_invert, rotBlock_invert, transBlock_invert,
      Matrix.transpose_transpose, Matrix.mulVec_neg, neg_neg,
      Matrix.mulVec_mulVec, h', Matrix.one_mulVec]

/-- C7: for every valid rigid transform `T` (orthonormal rotation block with
determinant 1), composing `T` with its inverse — in either order — yields the
identity transform (identity rotation, zero translation), exactly. -/
theorem compose_invert_roundtrip (T : Transform) (h : IsRigid T) :
    MultiplyTransforms T (InvertTransform T) = idTransform ∧
    MultiplyTransforms (InvertTransform T) T = idTransform := by
  obtain ⟨ho, -⟩ := h
  have ho' : rotBlock T * (rotBlock T)ᵀ = 1 := Matrix.mul_eq_one_comm.mp ho
  constructor
  · apply Transform.ext_blocks
    · rw [rotBlock_mult, rotBlock_invert, ho', rotBlock_id]
    · rw [transBlock_mult, transBlock_invert, transBlock_id,
        Matrix.mulVec_neg, Matrix.mulVec_mulVec, ho', Matrix.one_mulVec]
      simp
  · apply Transform.ext_blocks
    · rw [rotBlock_mult, rotBlock_invert, ho, rotBlock_id]
    · rw [transBlock_mult, transBlock_invert, rotBlock_invert, transBlock_id]
      simp

/-- The concrete transform `rigidT` is rigid. -/
theorem rigidT_isRigid : IsRigid rigidT := by
  constructor
  · ext i j
    fin_cases i <;> fin_cases j <;>
      simp [rigidT, rotBlock, Matrix.mul_apply, Matrix.transpose_apply,
        Fin.sum_univ_three, Matrix.one_apply, Matrix.vecHead, Matrix.vecTail,
        Function.comp, castSucc_two_eq]
  · rw [Matrix.det_fin_three]
    simp [rigidT, rotBlock, castSucc_two_eq]

/-- Witness for C7: the round trip at the concrete rigid transform
`rigidT`. -/
theorem compose_invert_roundtrip_witness :
    IsRigid rigidT ∧
    (MultiplyTransforms rigidT (InvertTransform rigidT) = idTransform ∧
      MultiplyTransforms (InvertTransform rigidT) rigidT = idTransform) :=
  ⟨rigidT_isRigid, compose_invert_roundtrip rigidT rigidT_isRigid⟩

set_option maxHeartbeats 1000000 in
/-- C8: for every unit quaternion `(w,x,y,z)` (with `w²+x²+y²+z² = 1`), the
rotation block produced by the Pose Encoder satisfies `Rᵀ * R = 1` and
`det R = 1`, exactly (hence within any tolerance). -/
theorem encoder_rotation_orthonormal (pose : Fin 3 → ℚ) (quat : Fin 4 → ℚ)
    (h : quat 0 ^ 2 + quat 1 ^ 2 + quat 2 ^ 2 + quat 3 ^ 2 = 1) :
    (rotBlock (PoseQuatToMatrix pose quat))ᵀ *
        rotBlock (PoseQuatToMatrix pose quat) = 1 ∧
    (rotBlock (PoseQuatToMatrix pose quat)).det = 1 := by
  refine ⟨?_, ?_⟩
  · ext i j
    fin_cases i <;> fin_cases j <;>
      simp [rotBlock, PoseQuatToMatrix, Matrix.mul_apply,
        Matrix.transpose_apply, Fin.sum_univ_three, Matrix.one_apply,
        castSucc_two_eq] <;>
      first
        | ring1
        | linear_combination (4*quat 2^2 + 4*quat 3^2) * h
        | linear_combination (4*quat 1^2 + 4*quat 3^2) * h
        | linear_combination (4*quat 1^2 + 4*quat 2^2) * h
        | linear_combination (-4*quat 1*quat 2) * h
        | linear_combination (-4*quat 1*quat 3) * h
        | linear_combination (-4*quat 2*quat 3) * h
  · rw [Matrix.det_fin_three]
    simp [rotBlock, PoseQuatToMatrix, castSucc_two_eq]
    linear_combination (4*quat 1^2 + 4*quat 2^2 + 4*quat 3^2) * h

/-- Witness for C8: the identity quaternion `(1,0,0,0)` is a unit quaternion,
and the instantiated conclusion. -/
theorem encoder_rotation_orthonormal_witness :
    ((![1, 0, 0, 0] : Fin 4 → ℚ) 0 ^ 2 + (![1, 0, 0, 0] : Fin 4 → ℚ) 1 ^ 2 +
      (![1, 0, 0, 0] : Fin 4 → ℚ) 2 ^ 2 +
      (![1, 0, 0, 0] : Fin 4 → ℚ) 3 ^ 2 = 1) ∧
    ((rotBlock (PoseQuatToMatrix ![0, 0, 0] ![1, 0, 0, 0]))ᵀ *
        rotBlock (PoseQuatToMatrix ![0, 0, 0] ![1, 0, 0, 0]) = 1 ∧
      (rotBlock (PoseQuatToMatrix ![0, 0, 0] ![1, 0, 0, 0])).det = 1) :=
  ⟨by norm_num, encoder_rotation_orthonormal ![0, 0, 0] ![1, 0, 0, 0]
    (by norm_num)⟩

/-- Witness for C10: the involution at the concrete rigid transform
`rigidT`. -/
theorem invertTransform_involutive_witness :
    ((rotBlock rigidT)ᵀ * rotBlock rigidT = 1) ∧
    InvertTransform (InvertTransform rigidT) = rigidT :=
  ⟨rigidT_isRigid.1, invertTransform_involutive rigidT rigidT_isRigid.1⟩

end ViveRelative
